import Mathlib

/-!
Verification of the Cave-Explorer web client: the typed API client
(`src/utils/api.js`, given as `src/unnamed/part_001`) and the call-state
wrapper hook (`useGameApi`, given as `src/unnamed/part_000`).

The JavaScript is shallowly embedded: JS values are the inductive `JSVal`,
property access is `getField` (failing on `null`/`undefined` receivers the
way a JS engine raises `TypeError`), truthiness is `truthy`, and the async
wrapper `apiCall` is a pure function from the outcome of the awaited call
to the final hook state plus the settled result of the wrapper itself.
-/

/-- A JavaScript value, as far as this client manipulates them. -/
inductive JSVal where
  | undefined : JSVal
  | null : JSVal
  | bool : Bool → JSVal
  | num : Int → JSVal
  | str : String → JSVal
  | obj : List (String × JSVal) → JSVal
deriving Repr

/-- Property lookup in an object literal; a missing key reads as `undefined`. -/
def lookupField : List (String × JSVal) → String → JSVal
  | [], _ => JSVal.undefined
  | (k, v) :: rest, key => if k = key then v else lookupField rest key

/-- The `TypeError` message a JS engine produces for a property read on
`null` or `undefined` (receiver kind and field name; modelled without the
engine's quoting of the field). -/
def typeErrorMessage (kind field : String) : String :=
  "Cannot read properties of " ++ kind ++ " (reading " ++ field ++ ")"

/-- The `TypeError` object thrown for a property read on `null`/`undefined`:
an error object carrying a message. -/
def typeErrorVal (kind field : String) : JSVal :=
  JSVal.obj [("message", JSVal.str (typeErrorMessage kind field))]

/-- JS property access `v.field`: throws (returns `.error e` with `e` the
thrown `TypeError` object) when the receiver is `null` or `undefined`;
reads the field of an object (missing → `undefined`); on the remaining
primitives a property read yields `undefined`. -/
def getField : JSVal → String → Except JSVal JSVal
  | JSVal.null, field => Except.error (typeErrorVal "null" field)
  | JSVal.undefined, field => Except.error (typeErrorVal "undefined" field)
  | JSVal.obj fields, field => Except.ok (lookupField fields field)
  | _, _ => Except.ok JSVal.undefined

/-- JS truthiness. -/
def truthy : JSVal → Bool
  | JSVal.undefined => false
  | JSVal.null => false
  | JSVal.bool b => b
  | JSVal.num n => n != 0
  | JSVal.str s => s != ""
  | JSVal.obj _ => true

/-- The hook state of `useGameApi`: the `loading` flag and the `error`
state (a JS value: the hook stores whatever `setError` receives). -/
structure HookState where
  loading : Bool
  error : JSVal
deriving Repr

/-- How the awaited `apiFunction(...args)` settles: it resolves with a
value or rejects with a thrown value. -/
inductive Outcome where
  | resolve : JSVal → Outcome
  | reject : JSVal → Outcome
deriving Repr

/-- The settled state of one `apiCall` invocation: the hook state after the
call plus the result of the wrapper promise itself (`.error e` when the
wrapper re-raised `e`, `.ok v` when it returned `v`). -/
structure CallResult where
  state : HookState
  result : Except JSVal JSVal
deriving Repr

/-- The `finally \x7b setLoading(false) \x7d` clause: every exit path of
`apiCall` clears the loading flag before the wrapper settles. -/
def finishCall (s : HookState) (r : Except JSVal JSVal) : CallResult :=
  { state := { s with loading := false }, result := r }

/-- Message used when a caught failure carries no (truthy) message:
`err.message || 'An unexpected error occurred'`. -/
def fallbackMessage : JSVal := JSVal.str "An unexpected error occurred"

/-- The `catch (err)` clause of `apiCall`: reads `err.message` (which can
itself throw, when `err` is `null`/`undefined`; that exception propagates
out of the catch), applies the `||` fallback, and yields the new error
state together with the returned value `null`. -/
def catchClause (err : JSVal) : Except JSVal (JSVal × JSVal) :=
  match getField err "message" with
  | Except.error e => Except.error e
  | Except.ok m =>
      Except.ok ((if truthy m then m else fallbackMessage), JSVal.null)

/-- The body of `apiCall` from `useGameApi`, as a function of how the
awaited `apiFunction(...args)` settles:
`setLoading(true); setError(''); try \x7b ... \x7d catch (err) \x7b ... \x7d finally \x7b setLoading(false) \x7d`. -/
def apiCall (call : Outcome) : CallResult :=
  let s : HookState := { loading := true, error := JSVal.str "" }
  match call with
  | Outcome.resolve result =>
      match getField result "error" with
      | Except.ok errField =>
          if truthy errField then
            finishCall { s with error := errField } (Except.ok JSVal.null)
          else
            finishCall s (Except.ok result)
      | Except.error thrown =>
          match catchClause thrown with
          | Except.ok (msg, ret) => finishCall { s with error := msg } (Except.ok ret)
          | Except.error e => finishCall s (Except.error e)
  | Outcome.reject err =>
      match catchClause err with
      | Except.ok (msg, ret) => finishCall { s with error := msg } (Except.ok ret)
      | Except.error e => finishCall s (Except.error e)

/-- The hook's `clearError: () => setError('')`. -/
def clearError (s : HookState) : HookState :=
  { s with error := JSVal.str "" }

/-! ## The typed API client (`src/utils/api.js`) -/

/-- JS string conversion, as used by template literals in the GET/DELETE
request paths. -/
def JSVal.toStr : JSVal → String
  | JSVal.undefined => "undefined"
  | JSVal.null => "null"
  | JSVal.bool b => if b then "true" else "false"
  | JSVal.num n => toString n
  | JSVal.str s => s
  | JSVal.obj _ => "[object Object]"

/-- `API_BASE_URL = import.meta.env.VITE_API_URL || 'http://localhost:8000'`:
the configured base URL as a function of the environment variable
(`none` = unset, which is falsy). -/
def apiBaseURL (viteApiUrl : Option String) : String :=
  match viteApiUrl with
  | some u => if u != "" then u else "http://localhost:8000"
  | none => "http://localhost:8000"

/-- The axios instance configuration (`axios.create`). -/
structure ApiConfig where
  baseURL : String
  timeout : Nat

/-- The configured client: base URL from the environment, fixed 10000 ms
timeout. -/
def api (viteApiUrl : Option String) : ApiConfig :=
  { baseURL := apiBaseURL viteApiUrl, timeout := 10000 }

/-- An axios transport failure as the response interceptor inspects it:
`error.response?.status` (the status of a received response, if any),
`error.code` (e.g. `ECONNABORTED` on a timeout), and `error.message`. -/
structure TransportError where
  response : Option Nat
  code : Option String
  message : String
deriving Repr

/-- The transport error as the JS object that would reach a `catch`. -/
def TransportError.toJSVal (e : TransportError) : JSVal :=
  JSVal.obj
    [("message", JSVal.str e.message),
     ("code", match e.code with
              | some c => JSVal.str c
              | none => JSVal.undefined),
     ("response", match e.response with
                  | some s => JSVal.obj [("status", JSVal.num s)]
                  | none => JSVal.undefined)]

/-- What the response interceptor's error handler ends up throwing: a fresh
`Error(message)` for the normalized cases, or the original transport error
re-thrown unchanged. -/
inductive NormalizedError where
  | thrown : String → NormalizedError
  | passthrough : TransportError → NormalizedError
deriving Repr

/-- `error.response?.status >= 500` (an absent response reads as
`undefined`, and `undefined >= 500` is false in JS). -/
def statusAtLeast500 : Option Nat → Bool
  | some s => 500 ≤ s
  | none => false

/-- The error-normalization chain of the response interceptor:
404 → `Error('Game session not found')`; any status ≥ 500 →
`Error('Server error - please try again later')`; `ECONNABORTED` →
`Error('Request timeout - please check your connection')`; otherwise the
original error is re-thrown unchanged. -/
def normalizeResponseError (e : TransportError) : NormalizedError :=
  if e.response = some 404 then
    NormalizedError.thrown "Game session not found"
  else if statusAtLeast500 e.response then
    NormalizedError.thrown "Server error - please try again later"
  else if e.code = some "ECONNABORTED" then
    NormalizedError.thrown "Request timeout - please check your connection"
  else
    NormalizedError.passthrough e

/-- The JS value that the interceptor's `throw` delivers to the awaiting
caller: a fresh error object for the normalized kinds, the original error
object for the passthrough kind. -/
def NormalizedError.toThrownVal : NormalizedError → JSVal
  | NormalizedError.thrown msg => JSVal.obj [("message", JSVal.str msg)]
  | NormalizedError.passthrough e => e.toJSVal

/-! ### Interceptor logging (console diagnostic sink) -/

/-- One write to the console diagnostic sink (tag and logged value). -/
structure LogEntry where
  tag : String
  payload : JSVal
deriving Repr

/-- An axios response as seen by the success interceptor. -/
structure AxiosResponse where
  status : Nat
  data : JSVal
deriving Repr

/-- The response as a JS object (what `console.log` receives). -/
def AxiosResponse.toJSVal (r : AxiosResponse) : JSVal :=
  JSVal.obj [("status", JSVal.num r.status), ("data", r.data)]

/-- `VITE_ENABLE_LOGGING === 'true'` (`none` = unset, the default). -/
def loggingOn (viteEnableLogging : Option String) : Bool :=
  viteEnableLogging = some "true"

/-- The request interceptor success handler: logs the outgoing config when
the logging flag is enabled, then forwards the config unchanged. -/
def requestInterceptor (viteEnableLogging : Option String) (config : JSVal) :
    List LogEntry × JSVal :=
  ((if loggingOn viteEnableLogging then [⟨"API Request:", config⟩] else []),
   config)

/-- The request interceptor error handler: `console.error` unconditionally,
then `Promise.reject(error)` with the error unchanged. -/
def requestErrorInterceptor (viteEnableLogging : Option String)
    (error : JSVal) : List LogEntry × JSVal :=
  ([⟨"API Request Error:", error⟩], error)

/-- The response interceptor success handler: logs the incoming response
when the logging flag is enabled, then forwards the response unchanged. -/
def responseInterceptor (viteEnableLogging : Option String)
    (response : AxiosResponse) : List LogEntry × AxiosResponse :=
  ((if loggingOn viteEnableLogging then [⟨"API Response:", response.toJSVal⟩]
    else []),
   response)

/-- The response interceptor error handler: `console.error` unconditionally,
then the normalization chain decides what is thrown. -/
def responseErrorInterceptor (viteEnableLogging : Option String)
    (error : TransportError) : List LogEntry × NormalizedError :=
  ([⟨"API Response Error:", error.toJSVal⟩], normalizeResponseError error)

/-! ### The six `gameAPI` operations -/

/-- HTTP method of a request issued by the client. -/
inductive Method where
  | post : Method
  | get : Method
  | delete : Method
deriving Repr, DecidableEq

/-- One HTTP request issued by a `gameAPI` operation: method, path, and —
for POSTs — the JSON body. -/
structure Request where
  method : Method
  path : String
  body : Option JSVal
deriving Repr

/-- JS default-parameter semantics: an omitted argument arrives as
`undefined` and is replaced by the declared default. -/
def jsDefault (arg default : JSVal) : JSVal :=
  match arg with
  | JSVal.undefined => default
  | v => v

namespace gameAPI

/-- `gameAPI.startGame(playerName, clientSeed = null)`: one POST to
`/start_game` with body `\x7b player_name, seed \x7d`. -/
def startGame (playerName clientSeed : JSVal) : Request :=
  let clientSeed := jsDefault clientSeed JSVal.null
  { method := Method.post, path := "/start_game",
    body := some (JSVal.obj
      [("player_name", playerName), ("seed", clientSeed)]) }

/-- `gameAPI.takeTurn(sessionId, playerName, pathId, insurance = false)`:
one POST to `/take_turn` with body
`\x7b session_id, player_name, chosen_path_id, insurance \x7d`. -/
def takeTurn (sessionId playerName pathId insurance : JSVal) : Request :=
  let insurance := jsDefault insurance (JSVal.bool false)
  { method := Method.post, path := "/take_turn",
    body := some (JSVal.obj
      [("session_id", sessionId), ("player_name", playerName),
       ("chosen_path_id", pathId), ("insurance", insurance)]) }

/-- `gameAPI.getGameState(sessionId)`: one GET of `/game_state/$\x7bsessionId\x7d`. -/
def getGameState (sessionId : JSVal) : Request :=
  { method := Method.get, path := "/game_state/" ++ sessionId.toStr,
    body := none }

/-- `gameAPI.revealProvenance(sessionId)`: one GET of `/reveal_game/$\x7bsessionId\x7d`. -/
def revealProvenance (sessionId : JSVal) : Request :=
  { method := Method.get, path := "/reveal_game/" ++ sessionId.toStr,
    body := none }

/-- `gameAPI.endSession(sessionId)`: one DELETE of `/session/$\x7bsessionId\x7d`. -/
def endSession (sessionId : JSVal) : Request :=
  { method := Method.delete, path := "/session/" ++ sessionId.toStr,
    body := none }

/-- `gameAPI.healthCheck()`: one GET of `/health`. -/
def healthCheck : Request :=
  { method := Method.get, path := "/health", body := none }

end gameAPI

/-- How the transport settles for one request: axios resolves with a
response (status and decoded body), or fails with a transport error that
the response interceptor will process. -/
inductive TransportOutcome where
  | success : Nat → JSVal → TransportOutcome
  | failure : TransportError → TransportOutcome
deriving Repr

/-- The outcome a `gameAPI` operation delivers to its awaiter: on transport
success the operation returns `response.data`; on transport failure the
response interceptor normalizes and throws. -/
def runTransport (t : TransportOutcome) : Outcome :=
  match t with
  | TransportOutcome.success _ body => Outcome.resolve body
  | TransportOutcome.failure e =>
      Outcome.reject (normalizeResponseError e).toThrownVal

namespace useGameApi

/-- The hook binding `startGame`: forwards its arguments to
`gameAPI.startGame` through `apiCall`; paired with the request issued. -/
def startGame (playerName clientSeed : JSVal) (t : TransportOutcome) :
    Request × CallResult :=
  (gameAPI.startGame playerName clientSeed, apiCall (runTransport t))

/-- The hook binding `takeTurn`. -/
def takeTurn (sessionId playerName pathId insurance : JSVal)
    (t : TransportOutcome) : Request × CallResult :=
  (gameAPI.takeTurn sessionId playerName pathId insurance,
   apiCall (runTransport t))

/-- The hook binding `getGameState`. -/
def getGameState (sessionId : JSVal) (t : TransportOutcome) :
    Request × CallResult :=
  (gameAPI.getGameState sessionId, apiCall (runTransport t))

/-- The hook binding `revealProvenance`. -/
def revealProvenance (sessionId : JSVal) (t : TransportOutcome) :
    Request × CallResult :=
  (gameAPI.revealProvenance sessionId, apiCall (runTransport t))

/-- The hook binding `endSession`. -/
def endSession (sessionId : JSVal) (t : TransportOutcome) :
    Request × CallResult :=
  (gameAPI.endSession sessionId, apiCall (runTransport t))

/-- The hook binding `healthCheck`. -/
def healthCheck (t : TransportOutcome) : Request × CallResult :=
  (gameAPI.healthCheck, apiCall (runTransport t))

end useGameApi

/-! ## Theorems -/

/-- Helper: rejecting with an error object whose `message` is a nonempty
string makes `apiCall` store that message and return `null`. -/
theorem apiCall_reject_withMessage (msg : String) (h : msg ≠ "") :
    apiCall (Outcome.reject (JSVal.obj [("message", JSVal.str msg)])) =
      { state := { loading := false, error := JSVal.str msg },
        result := Except.ok JSVal.null } := by
  simp [apiCall, catchClause, getField, lookupField, truthy, finishCall,
    bne_iff_ne, h]

/-- Helper: a resolved body whose `error` field reads as a non-truthy value
makes `apiCall` return the body with an empty error state; such a body is
in particular not `null`. -/
theorem apiCall_clean_success_helper (body v : JSVal)
    (h1 : getField body "error" = Except.ok v) (h2 : truthy v = false) :
    apiCall (Outcome.resolve body) =
      { state := { loading := false, error := JSVal.str "" },
        result := Except.ok body } ∧ body ≠ JSVal.null := by
  constructor
  · simp [apiCall, h1, h2, finishCall]
  · intro hb
    rw [hb] at h1
    simp [getField] at h1

/-- C2: after any invocation of the wrapper settles — clean resolution,
embedded application error, caught transport failure, or even a re-raised
failure — the `loading` flag is `false`. -/
theorem apiCall_loading_false_after_settle (call : Outcome) :
    (apiCall call).state.loading = false := by
  unfold apiCall
  cases call <;> dsimp only <;> (repeat' split) <;> rfl

/-- C1: a transport failure is normalized at the client boundary: status
404 → the `not found` message; any status ≥ 500 → the server-error
message; a deadline abort (`ECONNABORTED`, no response received) → the
timeout message; any other transport failure is re-raised unchanged. In
each case the wrapper then exposes exactly this message as its error state
with a `null` result (for the passthrough kind, the failure's own message,
provided it carries one). -/
theorem transport_error_normalization (e : TransportError) :
    (e.response = some 404 →
      normalizeResponseError e = NormalizedError.thrown "Game session not found" ∧
      (apiCall (runTransport (TransportOutcome.failure e))).state.error =
        JSVal.str "Game session not found" ∧
      (apiCall (runTransport (TransportOutcome.failure e))).result =
        Except.ok JSVal.null) ∧
    (statusAtLeast500 e.response = true →
      normalizeResponseError e =
        NormalizedError.thrown "Server error - please try again later" ∧
      (apiCall (runTransport (TransportOutcome.failure e))).state.error =
        JSVal.str "Server error - please try again later" ∧
      (apiCall (runTransport (TransportOutcome.failure e))).result =
        Except.ok JSVal.null) ∧
    (e.response = none → e.code = some "ECONNABORTED" →
      normalizeResponseError e =
        NormalizedError.thrown "Request timeout - please check your connection" ∧
      (apiCall (runTransport (TransportOutcome.failure e))).state.error =
        JSVal.str "Request timeout - please check your connection" ∧
      (apiCall (runTransport (TransportOutcome.failure e))).result =
        Except.ok JSVal.null) ∧
    (e.response ≠ some 404 → statusAtLeast500 e.response = false →
     e.code ≠ some "ECONNABORTED" → e.message ≠ "" →
      normalizeResponseError e = NormalizedError.passthrough e ∧
      (apiCall (runTransport (TransportOutcome.failure e))).state.error =
        JSVal.str e.message ∧
      (apiCall (runTransport (TransportOutcome.failure e))).result =
        Except.ok JSVal.null) := by
  refine ⟨?_, ?_, ?_, ?_⟩
  · intro h
    have hnorm : normalizeResponseError e =
        NormalizedError.thrown "Game session not found" := by
      simp [normalizeResponseError, h]
    have hw := apiCall_reject_withMessage "Game session not found" (by decide)
    refine ⟨hnorm, ?_, ?_⟩ <;>
      simp [runTransport, hnorm, NormalizedError.toThrownVal, hw]
  · intro h
    have hne : ¬ e.response = some 404 := by
      intro hc
      rw [hc] at h
      simp [statusAtLeast500] at h
    have hnorm : normalizeResponseError e =
        NormalizedError.thrown "Server error - please try again later" := by
      simp [normalizeResponseError, hne, h]
    have hw := apiCall_reject_withMessage "Server error - please try again later"
      (by decide)
    refine ⟨hnorm, ?_, ?_⟩ <;>
      simp [runTransport, hnorm, NormalizedError.toThrownVal, hw]
  · intro h1 h2
    have hnorm : normalizeResponseError e =
        NormalizedError.thrown "Request timeout - please check your connection" := by
      simp [normalizeResponseError, h1, h2, statusAtLeast500]
    have hw := apiCall_reject_withMessage
      "Request timeout - please check your connection" (by decide)
    refine ⟨hnorm, ?_, ?_⟩ <;>
      simp [runTransport, hnorm, NormalizedError.toThrownVal, hw]
  · intro h1 h2 h3 h4
    have hnorm : normalizeResponseError e = NormalizedError.passthrough e := by
      simp [normalizeResponseError, h1, h2, h3]
    have hw : apiCall (Outcome.reject e.toJSVal) =
        { state := { loading := false, error := JSVal.str e.message },
          result := Except.ok JSVal.null } := by
      simp [apiCall, catchClause, TransportError.toJSVal, getField, lookupField,
        truthy, finishCall, bne_iff_ne, h4]
    refine ⟨hnorm, ?_, ?_⟩ <;>
      simp [runTransport, hnorm, NormalizedError.toThrownVal, hw]

/-- Witness for C1: the four branches at concrete transport failures: a 404
response, a 502 response, a deadline abort, and a plain network error. -/
theorem transport_error_normalization_witness :
    (apiCall (runTransport (TransportOutcome.failure
        ⟨some 404, none, "Request failed with status code 404"⟩))).state.error =
      JSVal.str "Game session not found" ∧
    (apiCall (runTransport (TransportOutcome.failure
        ⟨some 502, none, "Request failed with status code 502"⟩))).state.error =
      JSVal.str "Server error - please try again later" ∧
    (apiCall (runTransport (TransportOutcome.failure
        ⟨none, some "ECONNABORTED", "timeout of 10000ms exceeded"⟩))).state.error =
      JSVal.str "Request timeout - please check your connection" ∧
    normalizeResponseError ⟨none, some "ERR_NETWORK", "Network Error"⟩ =
      NormalizedError.passthrough ⟨none, some "ERR_NETWORK", "Network Error"⟩ ∧
    (apiCall (runTransport (TransportOutcome.failure
        ⟨none, some "ERR_NETWORK", "Network Error"⟩))).state.error =
      JSVal.str "Network Error" :=
  ⟨((transport_error_normalization _).1 rfl).2.1,
   ((transport_error_normalization _).2.1 (by decide)).2.1,
   ((transport_error_normalization _).2.2.1 rfl rfl).2.1,
   ((transport_error_normalization _).2.2.2 (by decide) (by decide) (by decide)
      (by decide)).1,
   ((transport_error_normalization _).2.2.2 (by decide) (by decide) (by decide)
      (by decide)).2.1⟩

/-- C3: a successful transport response whose body carries a truthy `error`
field makes the wrapper store that field's value as the error state and
return `null`, raising no exception. -/
theorem apiCall_embedded_application_error (body v : JSVal)
    (h1 : getField body "error" = Except.ok v) (h2 : truthy v = true) :
    (apiCall (Outcome.resolve body)).state.error = v ∧
    (apiCall (Outcome.resolve body)).result = Except.ok JSVal.null := by
  constructor <;> simp [apiCall, h1, h2, finishCall]

/-- Witness for C3: the spec scenario — an HTTP 200 body
`\x7b error: "invalid path" \x7d`. -/
theorem apiCall_embedded_application_error_witness :
    (apiCall (Outcome.resolve
        (JSVal.obj [("error", JSVal.str "invalid path")]))).state.error =
      JSVal.str "invalid path" ∧
    (apiCall (Outcome.resolve
        (JSVal.obj [("error", JSVal.str "invalid path")]))).result =
      Except.ok JSVal.null :=
  apiCall_embedded_application_error
    (JSVal.obj [("error", JSVal.str "invalid path")])
    (JSVal.str "invalid path") rfl (by decide)

/-- C4: for all six operations, a successful transport response whose body
has no (truthy) embedded `error` field settles with `loading = false`,
error state `''`, and the non-null response body as the result. -/
theorem all_operations_clean_success (body v : JSVal) (status : Nat)
    (h1 : getField body "error" = Except.ok v) (h2 : truthy v = false) :
    (∀ playerName clientSeed,
      (useGameApi.startGame playerName clientSeed
          (TransportOutcome.success status body)).2 =
        { state := { loading := false, error := JSVal.str "" },
          result := Except.ok body }) ∧
    (∀ sessionId playerName pathId insurance,
      (useGameApi.takeTurn sessionId playerName pathId insurance
          (TransportOutcome.success status body)).2 =
        { state := { loading := false, error := JSVal.str "" },
          result := Except.ok body }) ∧
    (∀ sessionId,
      (useGameApi.getGameState sessionId
          (TransportOutcome.success status body)).2 =
        { state := { loading := false, error := JSVal.str "" },
          result := Except.ok body }) ∧
    (∀ sessionId,
      (useGameApi.revealProvenance sessionId
          (TransportOutcome.success status body)).2 =
        { state := { loading := false, error := JSVal.str "" },
          result := Except.ok body }) ∧
    (∀ sessionId,
      (useGameApi.endSession sessionId
          (TransportOutcome.success status body)).2 =
        { state := { loading := false, error := JSVal.str "" },
          result := Except.ok body }) ∧
    ((useGameApi.healthCheck (TransportOutcome.success status body)).2 =
        { state := { loading := false, error := JSVal.str "" },
          result := Except.ok body }) ∧
    body ≠ JSVal.null := by
  have hmain := apiCall_clean_success_helper body v h1 h2
  exact ⟨fun _ _ => hmain.1, fun _ _ _ _ => hmain.1, fun _ => hmain.1,
    fun _ => hmain.1, fun _ => hmain.1, hmain.1, hmain.2⟩

/-- Witness for C4: the spec scenario — `startGame("Ava", null)` against a
server answering 200 with body `\x7b session_id: "abc123" \x7d`. -/
theorem all_operations_clean_success_witness :
    (useGameApi.startGame (JSVal.str "Ava") JSVal.null
        (TransportOutcome.success 200
          (JSVal.obj [("session_id", JSVal.str "abc123")]))).2 =
      { state := { loading := false, error := JSVal.str "" },
        result := Except.ok (JSVal.obj [("session_id", JSVal.str "abc123")]) } ∧
    (JSVal.obj [("session_id", JSVal.str "abc123")]) ≠ JSVal.null :=
  ⟨(all_operations_clean_success
      (JSVal.obj [("session_id", JSVal.str "abc123")]) JSVal.undefined 200
      rfl rfl).1 (JSVal.str "Ava") JSVal.null,
   (all_operations_clean_success
      (JSVal.obj [("session_id", JSVal.str "abc123")]) JSVal.undefined 200
      rfl rfl).2.2.2.2.2.2⟩

/-- Counterexample for C5: a failure of the shape `undefined` carries no
message, yet instead of falling back to the generic string and returning
`null`, the wrapper re-raises (the `err.message` read itself throws). -/
theorem apiCall_reject_undefined_reraises :
    (apiCall (Outcome.reject JSVal.undefined)).result =
      Except.error (typeErrorVal "undefined" "message") := rfl

/-- C5 (amended): when the awaited call raises a failure whose `message`
property can be read (any thrown value other than `null`/`undefined`), the
wrapper captures that message — falling back to the generic string when it
is absent or falsy — and returns `null` instead of re-raising. -/
theorem apiCall_reject_captures_message (err m : JSVal)
    (h : getField err "message" = Except.ok m) :
    (apiCall (Outcome.reject err)).state.error =
      (if truthy m then m else fallbackMessage) ∧
    (apiCall (Outcome.reject err)).result = Except.ok JSVal.null := by
  constructor <;> simp [apiCall, catchClause, h, finishCall]

/-- Witness for C5: a rejection with an `Error` object carrying the message
`boom`. -/
theorem apiCall_reject_captures_message_witness :
    (apiCall (Outcome.reject
        (JSVal.obj [("message", JSVal.str "boom")]))).state.error =
      JSVal.str "boom" ∧
    (apiCall (Outcome.reject
        (JSVal.obj [("message", JSVal.str "boom")]))).result =
      Except.ok JSVal.null := by
  simpa [truthy] using apiCall_reject_captures_message
    (JSVal.obj [("message", JSVal.str "boom")]) (JSVal.str "boom") rfl

/-- Counterexample for C6: with the logging flag disabled (unset, i.e. its
default), a transport failure still produces a write to the console
diagnostic sink (`console.error` in the response interceptor is not gated
by the flag). -/
theorem logging_disabled_still_writes_on_error :
    (responseErrorInterceptor none
        ⟨none, some "ERR_NETWORK", "Network Error"⟩).1 ≠ [] := by
  intro h
  exact List.noConfusion h

/-- C6 (amended): with the flag enabled, every outgoing request and every
incoming response — success or failure — is written to the diagnostic
sink; with the flag disabled (its default), successful requests and
responses write nothing, but request-phase and response-phase failures
are still written unconditionally. -/
theorem interceptor_logging_gating (config : JSVal) (response : AxiosResponse)
    (reqErr : JSVal) (respErr : TransportError) :
    (requestInterceptor (some "true") config).1 =
      [⟨"API Request:", config⟩] ∧
    (responseInterceptor (some "true") response).1 =
      [⟨"API Response:", response.toJSVal⟩] ∧
    (responseErrorInterceptor (some "true") respErr).1 =
      [⟨"API Response Error:", respErr.toJSVal⟩] ∧
    (requestErrorInterceptor (some "true") reqErr).1 =
      [⟨"API Request Error:", reqErr⟩] ∧
    (requestInterceptor none config).1 = [] ∧
    (responseInterceptor none response).1 = [] ∧
    (responseErrorInterceptor none respErr).1 =
      [⟨"API Response Error:", respErr.toJSVal⟩] ∧
    (requestErrorInterceptor none reqErr).1 =
      [⟨"API Request Error:", reqErr⟩] := by
  refine ⟨?_, ?_, rfl, rfl, ?_, ?_, rfl, rfl⟩ <;>
    simp [requestInterceptor, responseInterceptor, loggingOn]

/-- C7: `takeTurn` issues one POST to `/take_turn` with body fields
`session_id`, `player_name`, `chosen_path_id`, `insurance` (defaulting to
`false` when the caller omits it, i.e. passes `undefined`); `startGame`
issues one POST to `/start_game` with body fields `player_name` and `seed`
(defaulting to `null` when omitted). -/
theorem request_shapes (sessionId playerName pathId insurance pn seed : JSVal) :
    gameAPI.takeTurn sessionId playerName pathId insurance =
      { method := Method.post, path := "/take_turn",
        body := some (JSVal.obj
          [("session_id", sessionId), ("player_name", playerName),
           ("chosen_path_id", pathId),
           ("insurance", jsDefault insurance (JSVal.bool false))]) } ∧
    gameAPI.takeTurn sessionId playerName pathId JSVal.undefined =
      { method := Method.post, path := "/take_turn",
        body := some (JSVal.obj
          [("session_id", sessionId), ("player_name", playerName),
           ("chosen_path_id", pathId), ("insurance", JSVal.bool false)]) } ∧
    gameAPI.startGame pn seed =
      { method := Method.post, path := "/start_game",
        body := some (JSVal.obj
          [("player_name", pn), ("seed", jsDefault seed JSVal.null)]) } ∧
    gameAPI.startGame pn JSVal.undefined =
      { method := Method.post, path := "/start_game",
        body := some (JSVal.obj
          [("player_name", pn), ("seed", JSVal.null)]) } :=
  ⟨rfl, rfl, rfl, rfl⟩

/-- C8: `clearError()` resets the error state to the empty string and
leaves the loading flag unchanged. -/
theorem clearError_clears_error_only (s : HookState) :
    (clearError s).error = JSVal.str "" ∧ (clearError s).loading = s.loading :=
  ⟨rfl, rfl⟩

/-- Helper for C9: a resolved call always settles normally, whatever the
body (including `null`/`undefined` bodies, whose failed `error`-field read
is caught inside the wrapper). -/
theorem apiCall_resolve_settles (body : JSVal) :
    ∃ v, (apiCall (Outcome.resolve body)).result = Except.ok v := by
  cases body with
  | undefined => exact ⟨JSVal.null, rfl⟩
  | null => exact ⟨JSVal.null, rfl⟩
  | bool b => exact ⟨JSVal.bool b, rfl⟩
  | num n => exact ⟨JSVal.num n, rfl⟩
  | str s => exact ⟨JSVal.str s, rfl⟩
  | obj fields =>
      by_cases h : truthy (lookupField fields "error") = true
      · exact ⟨JSVal.null, by simp [apiCall, getField, h, finishCall]⟩
      · exact ⟨JSVal.obj fields, by
          simp only [Bool.not_eq_true] at h
          simp [apiCall, getField, h, finishCall]⟩

/-- Counterexample for C9: a call that rejects with the value `null` (a
legal thrown value in JS) makes the wrapper itself raise — the catch
clause's `err.message` read throws a `TypeError` that propagates. -/
theorem apiCall_reject_null_raises :
    (apiCall (Outcome.reject JSVal.null)).result =
      Except.error (typeErrorVal "null" "message") := rfl

/-- C9 (amended): for every outcome of the underlying call — clean success,
embedded application error, or a raised failure of any shape other than
`null`/`undefined` — the wrapper's invoke itself never raises: it settles
normally with the response body or `null`. -/
theorem apiCall_settles_without_raising (call : Outcome)
    (h : ∀ e, call = Outcome.reject e →
      e ≠ JSVal.null ∧ e ≠ JSVal.undefined) :
    ∃ v, (apiCall call).result = Except.ok v := by
  cases call with
  | resolve body => exact apiCall_resolve_settles body
  | reject e =>
      have he := h e rfl
      cases e with
      | null => exact absurd rfl he.1
      | undefined => exact absurd rfl he.2
      | bool b => exact ⟨JSVal.null, rfl⟩
      | num n => exact ⟨JSVal.null, rfl⟩
      | str s => exact ⟨JSVal.null, rfl⟩
      | obj fields => exact ⟨JSVal.null, rfl⟩

/-- Witness for C9: a rejection with the thrown string `boom` — the
wrapper settles normally. -/
theorem apiCall_settles_without_raising_witness :
    ∃ v, (apiCall (Outcome.reject (JSVal.str "boom"))).result =
      Except.ok v :=
  apiCall_settles_without_raising (Outcome.reject (JSVal.str "boom"))
    (fun e he => by
      cases he
      exact ⟨fun hc => JSVal.noConfusion hc, fun hc => JSVal.noConfusion hc⟩)

/-- C10: when the transport resolves successfully but the decoded body is
`null` or `undefined`, the wrapper's read of the body's `error` field
itself throws, the exception is caught, and the call is reported as a
failure: the result is `null` and the error state is the accessor
failure's `TypeError` message, which is not the empty string. -/
theorem apiCall_null_body_reports_accessor_failure (status : Nat) :
    (apiCall (runTransport (TransportOutcome.success status JSVal.null)) =
      { state := { loading := false,
                   error := JSVal.str (typeErrorMessage "null" "error") },
        result := Except.ok JSVal.null }) ∧
    (apiCall (runTransport (TransportOutcome.success status JSVal.undefined)) =
      { state := { loading := false,
                   error := JSVal.str (typeErrorMessage "undefined" "error") },
        result := Except.ok JSVal.null }) ∧
    typeErrorMessage "null" "error" ≠ "" ∧
    typeErrorMessage "undefined" "error" ≠ "" :=
  ⟨rfl, rfl, by decide, by decide⟩
